import Mathlib

/-!
Shallow embedding of the REST microservices in this repository
(users, products, categories, receipts) and proofs about the
route-handler logic.  Request bodies are modelled as JavaScript
values, the database tables as in-memory lists of typed rows, and
each Express route handler as a pure function from request and
store to response and updated store.  External library calls
(JSON.parse, jwt.verify) are passed in as function parameters.
-/

/-- A JavaScript value as seen by the route handlers: the payload of a
parsed JSON request body field.  `vUndef` stands for JavaScript
`undefined` (an absent body field). -/
inductive JsVal where
  | vUndef
  | vNull
  | vBool (b : Bool)
  | vNum (n : Int)
  | vStr (s : String)
  | vArr (elems : List JsVal)
  | vObj (fields : List (String × JsVal))
deriving Repr

namespace JsVal

/-- JavaScript truthiness: `undefined`, `null`, `false`, `0` and `""` are
falsy; every array and object is truthy.  (NaN, not representable here,
is never produced by the handlers before a truthiness test.) -/
def truthy : JsVal → Bool
  | .vUndef => false
  | .vNull => false
  | .vBool b => b
  | .vNum n => n != 0
  | .vStr s => s != ""
  | .vArr _ => true
  | .vObj _ => true

/-- JavaScript `typeof`: note `typeof null` and `typeof` of an array are
both "object". -/
def typeofJs : JsVal → String
  | .vUndef => "undefined"
  | .vNull => "object"
  | .vBool _ => "boolean"
  | .vNum _ => "number"
  | .vStr _ => "string"
  | .vArr _ => "object"
  | .vObj _ => "object"

/-- JavaScript `Array.isArray`. -/
def isArray : JsVal → Bool
  | .vArr _ => true
  | _ => false

/-- Length of an array value; 0 for non-arrays (the handlers only read
`.length` after an `Array.isArray` check). -/
def arrayLength : JsVal → Nat
  | .vArr l => l.length
  | _ => 0

/-- Property access `v.key`: the first binding of an object, `undefined`
otherwise (arrays and primitives have none of the keys the handlers
read). -/
def getField (v : JsVal) (key : String) : JsVal :=
  match v with
  | .vObj fields =>
    match fields.find? (fun p => p.1 = key) with
    | some p => p.2
    | none => .vUndef
  | _ => .vUndef

end JsVal

/-- Digits of a decimal literal to a number: `none` if any character is
not a digit. -/
def decDigits? (l : List Char) : Option Nat :=
  l.foldl
    (fun acc c =>
      match acc with
      | none => none
      | some n => if c.isDigit then some (n * 10 + (c.toNat - 48)) else none)
    (some 0)

/-- ASCII whitespace, the forms `Number()` strips from a string. -/
def isWsp (c : Char) : Bool :=
  c == ' ' || c == '\t' || c == '\n' || c == '\r'

/-- Strip leading and trailing whitespace from a character list. -/
def trimChars (l : List Char) : List Char :=
  ((l.dropWhile isWsp).reverse.dropWhile isWsp).reverse

/-- JavaScript `Number()` on a string, for the integer-literal strings the
requests carry: whitespace-trimmed, empty string is 0, optional leading
minus sign, decimal digits; any other shape (floats, hex, garbage) is
NaN, represented as `none`. -/
def strToNumber (s : String) : Option Int :=
  match trimChars s.data with
  | [] => some 0
  | c :: rest =>
    if c = '-' then (decDigits? rest).map (fun n => -(n : Int))
    else (decDigits? (c :: rest)).map (fun n => (n : Int))

/-- JavaScript `Number()` coercion of a value.  `none` stands for NaN.
Array/object coercion (which goes through `toString`) is collapsed to
NaN; no handler feeds an array or object to `Number`. -/
def jsNumber : JsVal → Option Int
  | .vUndef => none
  | .vNull => some 0
  | .vBool b => some (if b then 1 else 0)
  | .vNum n => some n
  | .vStr s => strToNumber s
  | .vArr _ => none
  | .vObj _ => none

example : jsNumber (.vStr "50") = some 50 := by decide
example : jsNumber (.vStr "") = some 0 := by decide
example : jsNumber (.vStr "-7") = some (-7) := by decide
example : JsVal.truthy (.vStr "0") = true := by decide

/-- JavaScript `String()` on the values the handlers bind into text
columns; the claims only exercise it on strings.  Container
serialization (join for arrays) is out of scope and collapsed to its
empty-array form. -/
def jsToString : JsVal → String
  | .vUndef => "undefined"
  | .vNull => "null"
  | .vBool b => if b then "true" else "false"
  | .vNum n => toString n
  | .vStr s => s
  | .vArr _ => ""
  | .vObj _ => "[object Object]"

/-- JavaScript `String.prototype.trim`. -/
def jsTrim (s : String) : String :=
  ⟨trimChars s.data⟩

/-- Strict equality `v === "lit"` against a string literal. -/
def strictEqJsStr (v : JsVal) (s : String) : Bool :=
  match v with
  | .vStr t => t == s
  | _ => false

/-- Strict equality `v === true`. -/
def strictEqJsTrue (v : JsVal) : Bool :=
  match v with
  | .vBool b => b
  | _ => false

/-- Strict equality `v === n` against a number literal. -/
def strictEqJsNum (v : JsVal) (n : Int) : Bool :=
  match v with
  | .vNum m => m == n
  | _ => false

/-- The equality a `VARCHAR = $n` comparison or unique index applies to
a bound parameter: the pg client serializes the JavaScript value to
text, and the columns compared through this function are non-null text
in every reachable state. -/
def dbTextEq (a b : JsVal) : Bool :=
  jsToString a == jsToString b

/-!
## Receipts service (`index_boletas.js`)
-/

/-- The `fecha` value stored by POST /boletas: `new Date(fecha)` from the
request, or `new Date()` (the current time) when the field is falsy. -/
inductive FechaVal where
  | fromInput (v : JsVal)
  | currentTime
deriving Repr

/-- A row of the `boleta` table.  `total` is a JavaScript number with
`none` standing for NaN; `user_id` is a nullable integer column. -/
structure BoletaRow where
  numero_compra : Nat
  fecha : FechaVal
  comprador : JsVal
  productos : JsVal
  total : Option Int
  user_id : Option Int
deriving Repr

/-- The `boleta` table plus the serial sequence feeding
`numero_compra`. -/
structure BoletaStore where
  rows : List BoletaRow
  nextNumero : Nat
deriving Repr

/-- The fields POST /boletas destructures from the request body;
`vUndef` is an absent field. -/
structure BoletaBody where
  fecha : JsVal
  comprador : JsVal
  productos : JsVal
  total : JsVal
  user_id : JsVal
deriving Repr

/-- A body field that may arrive as pre-serialized JSON text: when the
value is a string, `JSON.parse` is applied and `none` is its failure;
any other value passes through. -/
def parseIfString (parse : String → Option JsVal) : JsVal → Option JsVal
  | .vStr s => parse s
  | v => some v

/-- User id column value: `user_id !== undefined && user_id !== null ?
(Number(user_id) || null) : null`, so NaN and 0 both collapse to
null. -/
def coerceUserId (v : JsVal) : Option Int :=
  match v with
  | .vUndef => none
  | .vNull => none
  | w =>
    match jsNumber w with
    | some n => if n = 0 then none else some n
    | none => none

/-- Response shaping `boleta.total = Number(boleta.total) || 0`: NaN
becomes 0, numbers pass through (0 maps to 0 either way). -/
def numOrZero : Option Int → Option Int
  | some n => some n
  | none => some 0

/-- Outcome of POST /boletas: a 400 validation failure with its message,
or a 201 with the inserted row as the response body. -/
inductive PostBoletasRes where
  | badRequest (msg : String)
  | created (row : BoletaRow)
deriving Repr

/-- HTTP status of a POST /boletas outcome. -/
def PostBoletasRes.status : PostBoletasRes → Nat
  | .badRequest _ => 400
  | .created _ => 201

/-- The POST /boletas handler: parse `comprador` and `productos` when
they arrive as strings (400 on malformed JSON), require a non-empty
array of `productos` and a buyer object with truthy `nombre` and
`correo`, default `fecha` to the current time and `total` to 0, insert
the row and return it. -/
def postBoletas (parse : String → Option JsVal) (body : BoletaBody) (st : BoletaStore) :
    PostBoletasRes × BoletaStore :=
  match parseIfString parse body.comprador with
  | none => (.badRequest "comprador debe ser JSON válido", st)
  | some comprador =>
    match parseIfString parse body.productos with
    | none => (.badRequest "productos debe ser JSON válido", st)
    | some productos =>
      if !productos.truthy || !productos.isArray || productos.arrayLength == 0 then
        (.badRequest "Productos requeridos (array no vacío)", st)
      else if !comprador.truthy || comprador.typeofJs != "object"
          || !(comprador.getField "nombre").truthy
          || !(comprador.getField "correo").truthy then
        (.badRequest "Datos del comprador requeridos (nombre y correo)", st)
      else
        let fechaVal := if body.fecha.truthy then FechaVal.fromInput body.fecha
          else FechaVal.currentTime
        let totalNum := match body.total with
          | .vUndef => some 0
          | t => jsNumber t
        let row : BoletaRow := {
          numero_compra := st.nextNumero
          fecha := fechaVal
          comprador := comprador
          productos := productos
          total := totalNum
          user_id := coerceUserId body.user_id }
        (.created { row with total := numOrZero row.total },
         { rows := st.rows ++ [row], nextNumero := st.nextNumero + 1 })

/-- The DELETE /boletas/:userId handler: unconditionally delete every
receipt of the user and answer 200 `ok: true` whether or not any row
matched. -/
def deleteBoletasByUser (st : BoletaStore) (userId : Int) : (Nat × JsVal) × BoletaStore :=
  ((200, .vObj [("ok", .vBool true)]),
   { rows := st.rows.filter (fun r => !(r.user_id == some userId)),
     nextNumero := st.nextNumero })

/-!
## Users service (`index_usuarios.js`)
-/

/-- A row of the `usuario` table; column values are kept as the
JavaScript values the handler bound into the insert. -/
structure UsuarioRow where
  id : Nat
  run : JsVal
  nombre : JsVal
  apellidos : JsVal
  correo : JsVal
  password : JsVal
  fecha_nacimiento : JsVal
  tipo_usuario : JsVal
  direccion : JsVal
  region : JsVal
  comuna : JsVal
  departamento : JsVal
  indicacion : JsVal
  historial : JsVal

/-- The `usuario` table plus its id sequence. -/
structure UsuarioStore where
  rows : List UsuarioRow
  nextId : Nat

/-- The fields POST /usuarios/register reads from the body (both the
camelCase and snake_case spellings of the two aliased fields). -/
structure RegisterBody where
  run : JsVal
  nombre : JsVal
  apellidos : JsVal
  correo : JsVal
  password : JsVal
  fechaNacimiento : JsVal
  fecha_nacimiento : JsVal
  tipoUsuario : JsVal
  tipo_usuario : JsVal
  direccion : JsVal
  region : JsVal
  comuna : JsVal
  departamento : JsVal
  indicacion : JsVal

/-- `normalizeEmptyToNull`: the empty string and `undefined` become
`null`; everything else passes through. -/
def normalizeEmptyToNull : JsVal → JsVal
  | .vStr s => if s = "" then .vNull else .vStr s
  | .vUndef => .vNull
  | v => v

/-- JavaScript nullish test, for the `??` operator. -/
def nullish : JsVal → Bool
  | .vUndef => true
  | .vNull => true
  | _ => false

/-- JavaScript `a ?? b`. -/
def jsCoalesce (a b : JsVal) : JsVal :=
  if nullish a then b else a

/-- JavaScript `a || b`. -/
def jsOrElse (a b : JsVal) : JsVal :=
  if a.truthy then a else b

/-- The `user` object shape produced by `normalizarUsuario`: the row
plus a `historialCompras` field equal to `historial || []`. -/
structure NormalizedUser where
  row : UsuarioRow
  historialCompras : JsVal

/-- `normalizarUsuario`: copy the row and add
`historialCompras = historial || []`. -/
def normalizarUsuario (r : UsuarioRow) : NormalizedUser :=
  { row := r, historialCompras := jsOrElse r.historial (.vArr []) }

/-- Outcome of POST /usuarios/register: 400 when email or password is
missing, 409 on the unique-violation error code 23505, 201 with
`ok: true` and the created user otherwise. -/
inductive RegisterRes where
  | badRequest (msg : String)
  | conflict (msg : String)
  | created (user : NormalizedUser)

/-- HTTP status of a register outcome. -/
def RegisterRes.status : RegisterRes → Nat
  | .badRequest _ => 400
  | .conflict _ => 409
  | .created _ => 201

/-- The row POST /usuarios/register binds into its insert: every
optional field normalized (empty string to null), the two aliased
fields resolved with `??`, the user type defaulted to "cliente", the
purchase history to the column default `[]`. -/
def registerRow (body : RegisterBody) (id : Nat) : UsuarioRow :=
  { id := id
    run := normalizeEmptyToNull body.run
    nombre := normalizeEmptyToNull body.nombre
    apellidos := normalizeEmptyToNull body.apellidos
    correo := normalizeEmptyToNull body.correo
    password := normalizeEmptyToNull body.password
    fecha_nacimiento := normalizeEmptyToNull (jsCoalesce body.fechaNacimiento body.fecha_nacimiento)
    tipo_usuario := jsOrElse (normalizeEmptyToNull (jsCoalesce body.tipoUsuario body.tipo_usuario)) (.vStr "cliente")
    direccion := normalizeEmptyToNull body.direccion
    region := normalizeEmptyToNull body.region
    comuna := normalizeEmptyToNull body.comuna
    departamento := normalizeEmptyToNull body.departamento
    indicacion := normalizeEmptyToNull body.indicacion
    historial := .vArr [] }

/-- The POST /usuarios/register handler: normalize the optional fields,
require truthy `correo` and `password`, insert the row (the store's
unique index on `correo` yields the 23505 conflict on a duplicate) and
return the created user. -/
def register (body : RegisterBody) (st : UsuarioStore) : RegisterRes × UsuarioStore :=
  let correo := normalizeEmptyToNull body.correo
  let password := normalizeEmptyToNull body.password
  if !correo.truthy || !password.truthy then
    (.badRequest "Correo y password requeridos", st)
  else if st.rows.any (fun r => dbTextEq r.correo correo) then
    (.conflict "Usuario ya existe", st)
  else
    let row := registerRow body st.nextId
    (.created (normalizarUsuario row), { rows := st.rows ++ [row], nextId := st.nextId + 1 })

/-- Outcome of POST /usuarios/login: a failure status with its JSON
body, or a success carrying the signed token's payload (the `usuario`
claim embeds the email) and the normalized user. -/
inductive LoginRes where
  | fail (status : Nat) (body : JsVal)
  | success (tokenPayload : JsVal) (user : NormalizedUser)

/-- The POST /usuarios/login handler: select the first row whose
`correo` and `password` both equal the request values; no row is a 401
with a fixed message, a row yields a token whose payload holds the
email. -/
def login (correo password : JsVal) (st : UsuarioStore) : LoginRes :=
  match st.rows.find? (fun r => dbTextEq r.correo correo && dbTextEq r.password password) with
  | none => .fail 401 (.vObj [("message", .vStr "Credenciales inválidas")])
  | some row => .success (.vObj [("usuario", correo)]) (normalizarUsuario row)

/-- Split a character list at a separator, as JavaScript
`String.prototype.split` does on its non-empty separator. -/
def splitChars (sep : Char) : List Char → List (List Char)
  | [] => [[]]
  | c :: rest =>
    let r := splitChars sep rest
    if c = sep then [] :: r
    else
      match r with
      | [] => [[c]]
      | h :: t => (c :: h) :: t

/-- Outcome of the JWT middleware: a rejection with status and body, or
permission to proceed with the decoded `usuario` attached to the
request. -/
inductive MwResult where
  | reject (status : Nat) (body : JsVal)
  | proceed (usuario : JsVal)

/-- The bearer token `authHeader.split(" ")[1]`: the second
space-separated chunk of the Authorization header, absent when the
header has no space. -/
def headerToken (h : String) : Option String :=
  ((splitChars ' ' h.data).get? 1).map (fun l => ⟨l⟩)

/-- The `verificarToken` middleware: 403 when no Authorization header is
present; otherwise verify the extracted bearer token (a missing chunk
is the `jwt.verify(undefined)` error case) and 401 when verification
fails, attaching `decoded.usuario` on success.  `verify` abstracts
`jwt.verify`, returning the decoded payload or `none` for a malformed,
expired or wrongly signed token. -/
def verificarToken (verify : String → Option JsVal) (authHeader : Option String) : MwResult :=
  match authHeader with
  | none => .reject 403 (.vObj [("message", .vStr "Token requerido")])
  | some h =>
    match headerToken h with
    | none => .reject 401 (.vObj [("message", .vStr "Token inválido")])
    | some tok =>
      match verify tok with
      | none => .reject 401 (.vObj [("message", .vStr "Token inválido")])
      | some decoded => .proceed (decoded.getField "usuario")

/-- A token-protected route: the handler runs only when the middleware
calls `next()`, receiving the attached `req.usuario`. -/
def protectedRoute {α : Type} (verify : String → Option JsVal) (authHeader : Option String)
    (handler : JsVal → α) : Except (Nat × JsVal) α :=
  match verificarToken verify authHeader with
  | .reject s b => .error (s, b)
  | .proceed u => .ok (handler u)

/-!
## Categories service (`index_categorias.js`) and the `producto` table
-/

/-- A row of the `categoria` table. -/
structure CategoriaRow where
  id : Nat
  nombre : String
deriving Repr, DecidableEq

/-- The `categoria` table plus its id sequence. -/
structure CategoriaStore where
  rows : List CategoriaRow
  nextId : Nat
deriving Repr

/-- A JavaScript number stored in a numeric column; `none` is NaN. -/
abbrev JsNumber := Option Int

/-- A row of the `producto` table. -/
structure ProductoRow where
  id : Nat
  codigo : Option String
  nombre : Option String
  descripcion : Option String
  categoria : Option String
  precio : JsNumber
  precio_oferta : Option JsNumber
  en_oferta : Bool
  stock : JsNumber
  stock_critico : JsNumber
  imagen_url : Option String
deriving Repr

/-- The `producto` table plus its id sequence. -/
structure ProductoStore where
  rows : List ProductoRow
  nextId : Nat
deriving Repr

/-- Outcome of POST /categorias. -/
inductive CreateCategoriaRes where
  | badRequest (msg : String)
  | conflict (msg : String)
  | created (row : CategoriaRow)
  | serverError
deriving Repr

/-- The POST /categorias handler: 400 unless `nombre` is truthy with a
non-empty trim; insert the trimmed name, 409 on the duplicate-name
unique violation.  A truthy non-string `nombre` passes validation but
`nombre.trim()` then throws, which the catch turns into a 500. -/
def createCategoria (nombre : JsVal) (st : CategoriaStore) : CreateCategoriaRes × CategoriaStore :=
  if !nombre.truthy || jsTrim (jsToString nombre) == "" then
    (.badRequest "Nombre de categoría requerido", st)
  else
    match nombre with
    | .vStr s =>
      let t := jsTrim s
      if st.rows.any (fun r => r.nombre == t) then
        (.conflict "Categoría ya existe", st)
      else
        (.created ⟨st.nextId, t⟩, { rows := st.rows ++ [⟨st.nextId, t⟩], nextId := st.nextId + 1 })
    | _ => (.serverError, st)

/-- The default category names seeded by POST /categorias/seed. -/
def seedDefaults : List String :=
  ["Electrónica", "Ropa", "Hogar", "Gamer"]

/-- One seed insert: `INSERT ... ON CONFLICT (nombre) DO NOTHING`, a
no-op when the name is already present. -/
def seedInsert (st : CategoriaStore) (n : String) : CategoriaStore :=
  if st.rows.any (fun r => r.nombre == n) then st
  else { rows := st.rows ++ [⟨st.nextId, n⟩], nextId := st.nextId + 1 }

/-- State of the category table after POST /categorias/seed. -/
def seedState (st : CategoriaStore) : CategoriaStore :=
  List.foldl seedInsert st seedDefaults

/-- The multiset of category names held by a store, in row order. -/
def categoriaNames (st : CategoriaStore) : List String :=
  st.rows.map (fun r => r.nombre)

/-- The name list a `SELECT nombre FROM categoria ORDER BY nombre`
returns. -/
def sortedNombres (st : CategoriaStore) : List String :=
  (categoriaNames st).mergeSort (fun a b => a ≤ b)

/-- The POST /categorias/seed handler: seed the defaults, then answer
200 with `ok: true` and the full current name list. -/
def postSeed (st : CategoriaStore) : (Nat × Bool × List String) × CategoriaStore :=
  ((200, true, sortedNombres (seedState st)), seedState st)

/-- Outcome of DELETE /categorias/:id. -/
inductive DeleteCategoriaRes where
  | notFound (msg : String)
  | ok
deriving Repr

/-- The DELETE /categorias/:id handler: 404 when no category has the
id; otherwise a best-effort `UPDATE producto SET categoria = NULL`
for products carrying the category's name — `updateFails` models that
statement throwing, which is caught and ignored — then the category row
is deleted and `ok: true` returned. -/
def deleteCategoria (id : Nat) (updateFails : Bool) (cst : CategoriaStore)
    (pst : ProductoStore) : DeleteCategoriaRes × CategoriaStore × ProductoStore :=
  match cst.rows.find? (fun r => r.id == id) with
  | none => (.notFound "Categoría no encontrada", cst, pst)
  | some row =>
    let pst2 := if updateFails then pst
      else { rows := pst.rows.map (fun p =>
               if p.categoria == some row.nombre then { p with categoria := none } else p),
             nextId := pst.nextId }
    (.ok, { rows := cst.rows.filter (fun r => !(r.id == id)), nextId := cst.nextId }, pst2)

/-!
## Products service (`index_productos.js`)
-/

/-- The fields POST /productos destructures from the body, plus the
`imagen` URL fallback field. -/
structure ProductoBody where
  codigo : JsVal
  nombre : JsVal
  descripcion : JsVal
  categoria : JsVal
  precio : JsVal
  precio_oferta : JsVal
  en_oferta : JsVal
  stock : JsVal
  stock_critico : JsVal
  imagen : JsVal

/-- The create path's on-sale coercion:
`en_oferta === "true" || en_oferta === true || en_oferta === 1 ||
en_oferta === "1"`. -/
def enOfertaCreate (v : JsVal) : Bool :=
  strictEqJsStr v "true" || strictEqJsTrue v || strictEqJsNum v 1 || strictEqJsStr v "1"

/-- A nullable text column value `v || null`. -/
def textOrNull (v : JsVal) : Option String :=
  if v.truthy then some (jsToString v) else none

/-- The POST /productos handler: numeric fields coerced with `Number`
when truthy and defaulted to 0 (or null for `precio_oferta`) otherwise,
the on-sale flag through the create coercion, and the image URL from
the uploaded file when present, else the `imagen` body field.  Always
answers 201 with the inserted row. -/
def createProducto (body : ProductoBody) (file : Option String) (st : ProductoStore) :
    (Nat × ProductoRow) × ProductoStore :=
  let precioNum := if body.precio.truthy then jsNumber body.precio else some 0
  let precioOfertaNum := if body.precio_oferta.truthy then some (jsNumber body.precio_oferta) else none
  let stockNum := if body.stock.truthy then jsNumber body.stock else some 0
  let stockCriticoNum := if body.stock_critico.truthy then jsNumber body.stock_critico else some 0
  let enOfertaBool := enOfertaCreate body.en_oferta
  let imagenUrl := match file with
    | some f => some ("/uploads/" ++ f)
    | none => textOrNull body.imagen
  let row : ProductoRow := {
    id := st.nextId
    codigo := textOrNull body.codigo
    nombre := textOrNull body.nombre
    descripcion := textOrNull body.descripcion
    categoria := textOrNull body.categoria
    precio := precioNum
    precio_oferta := precioOfertaNum
    en_oferta := enOfertaBool
    stock := stockNum
    stock_critico := stockCriticoNum
    imagen_url := imagenUrl }
  ((201, row), { rows := st.rows ++ [row], nextId := st.nextId + 1 })

/-- The update path's on-sale coercion, applied only when the field is
present: `campos.en_oferta = campos.en_oferta === "true" ||
campos.en_oferta === true`. -/
def enOfertaUpdate (v : JsVal) : Bool :=
  strictEqJsStr v "true" || strictEqJsTrue v

/-- The `en_oferta` entry of the `campos` object after PUT
/productos/:id's coercion prologue: untouched when absent, otherwise
replaced by the boolean the update coercion yields. -/
def putEnOferta (v : JsVal) : JsVal :=
  match v with
  | .vUndef => .vUndef
  | w => .vBool (enOfertaUpdate w)

/-- The DELETE /productos/:id handler: unconditional delete with no
existence check, always answering 200 `ok: true`. -/
def deleteProducto (st : ProductoStore) (id : Nat) : (Nat × JsVal) × ProductoStore :=
  ((200, .vObj [("ok", .vBool true)]),
   { rows := st.rows.filter (fun r => !(r.id == id)), nextId := st.nextId })

/-- The GET /productos/categoria/:cat handler: a plain filter by exact
category match, answered with the default 200 status whatever the
result (the empty list included). -/
def getProductosByCategoria (st : ProductoStore) (cat : String) : Nat × List ProductoRow :=
  (200, st.rows.filter (fun p => p.categoria == some cat))

/-- A concrete user row: "a@b" with password "pw". -/
def uniformRow : UsuarioRow :=
  { id := 1, run := .vNull, nombre := .vNull, apellidos := .vNull,
    correo := .vStr "a@b", password := .vStr "pw", fecha_nacimiento := .vNull,
    tipo_usuario := .vStr "cliente", direccion := .vNull, region := .vNull,
    comuna := .vNull, departamento := .vNull, indicacion := .vNull,
    historial := .vArr [] }

/-- A one-user store holding `uniformRow`. -/
def uniformStore : UsuarioStore :=
  { rows := [uniformRow], nextId := 2 }

/-- A token verifier accepting exactly the token "tok", whose payload
carries `usuario = "u@x"`. -/
def uniformVerify (t : String) : Option JsVal :=
  if t = "tok" then some (.vObj [("usuario", .vStr "u@x")]) else none

/-- A concrete buyer object with nombre and correo. -/
def juanComprador : JsVal :=
  .vObj [("nombre", .vStr "Juan"), ("correo", .vStr "j@x")]

/-- A concrete valid receipt body: one product, no fecha, no total. -/
def juanBody : BoletaBody :=
  { fecha := .vUndef, comprador := juanComprador, productos := .vArr [.vNum 1],
    total := .vUndef, user_id := .vUndef }

/-- A concrete receipt body with an empty product array. -/
def sinProductosBody : BoletaBody :=
  { fecha := .vUndef, comprador := juanComprador, productos := .vArr [],
    total := .vUndef, user_id := .vUndef }

/-!
## Theorems
-/

/-- C8: DELETE /productos/:id responds 200 with `ok: true` for every id,
with no existence check — when no row with the id exists the store and
the success response are untouched — and DELETE /boletas/:userId
deletes all matching receipts and likewise always reports success, even
when no receipt matched. -/
theorem delete_always_ok (pst : ProductoStore) (pid : Nat) (bst : BoletaStore) (uid : Int) :
    (deleteProducto pst pid).1 = (200, .vObj [("ok", .vBool true)]) ∧
    (deleteProducto pst pid).2.rows = pst.rows.filter (fun r => !(r.id == pid)) ∧
    ((∀ r ∈ pst.rows, r.id ≠ pid) → (deleteProducto pst pid).2 = pst) ∧
    (deleteBoletasByUser bst uid).1 = (200, .vObj [("ok", .vBool true)]) ∧
    (deleteBoletasByUser bst uid).2.rows = bst.rows.filter (fun r => !(r.user_id == some uid)) ∧
    ((∀ r ∈ bst.rows, r.user_id ≠ some uid) → (deleteBoletasByUser bst uid).2 = bst) := by
  refine ⟨rfl, rfl, fun h => ?_, rfl, rfl, fun h => ?_⟩
  · show ProductoStore.mk (pst.rows.filter (fun r => !(r.id == pid))) pst.nextId = pst
    have : pst.rows.filter (fun r => !(r.id == pid)) = pst.rows := by
      apply List.filter_eq_self.mpr
      intro r hr
      simpa using h r hr
    rw [this]
  · show BoletaStore.mk (bst.rows.filter (fun r => !(r.user_id == some uid))) bst.nextNumero = bst
    have : bst.rows.filter (fun r => !(r.user_id == some uid)) = bst.rows := by
      apply List.filter_eq_self.mpr
      intro r hr
      simpa using h r hr
    rw [this]

/-- Closed instance of `delete_always_ok` at the empty stores, where no
row matches either delete. -/
theorem delete_always_ok_witness :
    (deleteProducto ⟨[], 1⟩ 7).2 = ⟨[], 1⟩ ∧ (deleteBoletasByUser ⟨[], 1⟩ 7).2 = ⟨[], 1⟩ :=
  ⟨(delete_always_ok ⟨[], 1⟩ 7 ⟨[], 1⟩ 7).2.2.1 (by simp),
   (delete_always_ok ⟨[], 1⟩ 7 ⟨[], 1⟩ 7).2.2.2.2.2 (by simp)⟩

/-- C10: GET /productos/categoria/:cat responds 200 with the list of
products whose category matches exactly; when nothing matches it is
200 with the empty array, never 404. -/
theorem getProductosByCategoria_ok (st : ProductoStore) (cat : String) :
    (getProductosByCategoria st cat).1 = 200 ∧
    (getProductosByCategoria st cat).2 = st.rows.filter (fun p => p.categoria == some cat) ∧
    ((∀ p ∈ st.rows, p.categoria ≠ some cat) → getProductosByCategoria st cat = (200, [])) := by
  refine ⟨rfl, rfl, fun h => ?_⟩
  have : st.rows.filter (fun p => p.categoria == some cat) = [] := by
    rw [List.filter_eq_nil_iff]
    intro p hp
    simpa using h p hp
  simp [getProductosByCategoria, this]

/-- Closed instance of `getProductosByCategoria_ok`: the empty store has
no product in category "Hogar", and the response is 200 with `[]`. -/
theorem getProductosByCategoria_ok_witness :
    getProductosByCategoria ⟨[], 1⟩ "Hogar" = (200, []) :=
  (getProductosByCategoria_ok ⟨[], 1⟩ "Hogar").2.2 (by simp)

/-- C9: the PUT /productos/:id on-sale coercion accepts only `"true"`
and `true`; the values `1` and `"1"`, which the POST path accepts,
coerce to `false` on update, so the update coercion is strictly
narrower than the create coercion (which `createProducto` stores
verbatim). -/
theorem putEnOferta_narrower :
    (∀ v : JsVal, putEnOferta v = .vBool true → enOfertaCreate v = true) ∧
    putEnOferta (.vNum 1) = .vBool false ∧
    putEnOferta (.vStr "1") = .vBool false ∧
    enOfertaCreate (.vNum 1) = true ∧
    enOfertaCreate (.vStr "1") = true ∧
    putEnOferta (.vStr "true") = .vBool true ∧
    putEnOferta (.vBool true) = .vBool true ∧
    (∀ (body : ProductoBody) (file : Option String) (st : ProductoStore),
      ((createProducto body file st).1.2).en_oferta = enOfertaCreate body.en_oferta) := by
  refine ⟨?_, rfl, rfl, by decide, by decide, rfl, rfl,
    fun body file st => rfl⟩
  intro v h
  cases v <;>
    simp [putEnOferta, enOfertaUpdate, enOfertaCreate, strictEqJsStr, strictEqJsTrue,
      strictEqJsNum] at h ⊢ <;>
    simp [h]

/-- Closed instance of `putEnOferta_narrower`: `"true"` passes the
update coercion, hence also the create coercion. -/
theorem putEnOferta_narrower_witness :
    enOfertaCreate (.vStr "true") = true :=
  putEnOferta_narrower.1 (.vStr "true") rfl

/-- C6: the row stored by POST /productos coerces string-valued numeric
fields with `Number`, defaults absent `precio`, `stock` and
`stock_critico` to 0 and absent `precio_oferta` to null, and sets
`en_oferta` to true exactly for the inputs `"true"`, `true`, `1` and
`"1"`; in particular `en_oferta="1"` with `stock="50"` stores `true`
and the number 50. -/
theorem createProducto_coercions (body : ProductoBody) (file : Option String)
    (st : ProductoStore) :
    (((createProducto body file st).1.2).en_oferta = true ↔
      (body.en_oferta = .vStr "true" ∨ body.en_oferta = .vBool true ∨
       body.en_oferta = .vNum 1 ∨ body.en_oferta = .vStr "1")) ∧
    (body.precio = .vUndef → ((createProducto body file st).1.2).precio = some 0) ∧
    (body.stock = .vUndef → ((createProducto body file st).1.2).stock = some 0) ∧
    (body.stock_critico = .vUndef →
      ((createProducto body file st).1.2).stock_critico = some 0) ∧
    (body.precio_oferta = .vUndef →
      ((createProducto body file st).1.2).precio_oferta = none) ∧
    (∀ s, body.precio = .vStr s → ((createProducto body file st).1.2).precio = strToNumber s) ∧
    (∀ s, body.stock = .vStr s → ((createProducto body file st).1.2).stock = strToNumber s) ∧
    (∀ s, body.stock_critico = .vStr s →
      ((createProducto body file st).1.2).stock_critico = strToNumber s) ∧
    (body.en_oferta = .vStr "1" → ((createProducto body file st).1.2).en_oferta = true) ∧
    (body.stock = .vStr "50" → ((createProducto body file st).1.2).stock = some 50) := by
  have hstr : ∀ s : String, (if (JsVal.vStr s).truthy then jsNumber (.vStr s) else some 0) =
      strToNumber s := by
    intro s
    by_cases hs : s = ""
    · subst hs
      simp [JsVal.truthy, strToNumber, trimChars]
    · simp [JsVal.truthy, hs, jsNumber]
  refine ⟨?_, fun h => ?_, fun h => ?_, fun h => ?_, fun h => ?_,
    fun s h => ?_, fun s h => ?_, fun s h => ?_, fun h => ?_, fun h => ?_⟩
  · show enOfertaCreate body.en_oferta = true ↔ _
    cases body.en_oferta <;>
      simp [enOfertaCreate, strictEqJsStr, strictEqJsTrue, strictEqJsNum]
  · show (if body.precio.truthy then jsNumber body.precio else some 0) = some 0
    simp [h, JsVal.truthy]
  · show (if body.stock.truthy then jsNumber body.stock else some 0) = some 0
    simp [h, JsVal.truthy]
  · show (if body.stock_critico.truthy then jsNumber body.stock_critico else some 0) = some 0
    simp [h, JsVal.truthy]
  · show (if body.precio_oferta.truthy then some (jsNumber body.precio_oferta) else none) = none
    simp [h, JsVal.truthy]
  · show (if body.precio.truthy then jsNumber body.precio else some 0) = strToNumber s
    rw [h]
    exact hstr s
  · show (if body.stock.truthy then jsNumber body.stock else some 0) = strToNumber s
    rw [h]
    exact hstr s
  · show (if body.stock_critico.truthy then jsNumber body.stock_critico else some 0) =
      strToNumber s
    rw [h]
    exact hstr s
  · show enOfertaCreate body.en_oferta = true
    rw [h]
    decide
  · show (if body.stock.truthy then jsNumber body.stock else some 0) = some 50
    rw [h]
    decide

/-- Closed instance of `createProducto_coercions`: the body with
`en_oferta="1"` and `stock="50"` stores boolean true and the number
50. -/
theorem createProducto_coercions_witness :
    ((createProducto
        ⟨.vUndef, .vUndef, .vUndef, .vUndef, .vUndef, .vUndef, .vStr "1", .vStr "50",
         .vUndef, .vUndef⟩ none ⟨[], 1⟩).1.2).en_oferta = true ∧
    ((createProducto
        ⟨.vUndef, .vUndef, .vUndef, .vUndef, .vUndef, .vUndef, .vStr "1", .vStr "50",
         .vUndef, .vUndef⟩ none ⟨[], 1⟩).1.2).stock = some 50 :=
  ⟨(createProducto_coercions _ none _).2.2.2.2.2.2.2.2.1 rfl,
   (createProducto_coercions _ none _).2.2.2.2.2.2.2.2.2 rfl⟩

/-- C3: a login with a stored correo but wrong password and a login
with a correo stored for no user produce the very same 401 response,
status and body alike — the handler answers any empty credential match
with one fixed message. -/
theorem login_uniform_failure (st : UsuarioStore) (cs ps cs2 ps2 : String)
    (_hexists : ∃ r ∈ st.rows, jsToString r.correo = cs)
    (hwrong : ∀ r ∈ st.rows, jsToString r.correo = cs → jsToString r.password ≠ ps)
    (hmissing : ∀ r ∈ st.rows, jsToString r.correo ≠ cs2) :
    login (.vStr cs) (.vStr ps) st =
      .fail 401 (.vObj [("message", .vStr "Credenciales inválidas")]) ∧
    login (.vStr cs2) (.vStr ps2) st =
      .fail 401 (.vObj [("message", .vStr "Credenciales inválidas")]) ∧
    login (.vStr cs) (.vStr ps) st = login (.vStr cs2) (.vStr ps2) st := by
  have h1 : st.rows.find?
      (fun r => dbTextEq r.correo (.vStr cs) && dbTextEq r.password (.vStr ps)) = none := by
    rw [List.find?_eq_none]
    intro r hr
    simp only [dbTextEq, jsToString, Bool.and_eq_true, beq_iff_eq, not_and]
    exact fun hc => hwrong r hr hc
  have h2 : st.rows.find?
      (fun r => dbTextEq r.correo (.vStr cs2) && dbTextEq r.password (.vStr ps2)) = none := by
    rw [List.find?_eq_none]
    intro r hr
    simp only [dbTextEq, jsToString, Bool.and_eq_true, beq_iff_eq, not_and]
    exact fun hc => absurd hc (hmissing r hr)
  refine ⟨?_, ?_, ?_⟩ <;> simp [login, h1, h2]

/-- Closed instance of `login_uniform_failure`: a store holding one
user "a@b" with password "pw"; logging in as "a@b" with "xx" and as
"c@d" with "pw" both yield the identical 401 response. -/
theorem login_uniform_failure_witness :
    login (.vStr "a@b") (.vStr "xx") uniformStore =
      login (.vStr "c@d") (.vStr "pw") uniformStore :=
  (login_uniform_failure uniformStore "a@b" "xx" "c@d" "pw"
    ⟨uniformRow, by simp [uniformStore], rfl⟩
    (by
      intro r hr _
      simp only [uniformStore, List.mem_singleton] at hr
      subst hr
      decide)
    (by
      intro r hr
      simp only [uniformStore, List.mem_singleton] at hr
      subst hr
      decide)).2.2

/-- C7: a request to a token-protected route with no Authorization
header is rejected (403) without the handler running; a token that
fails verification (malformed, expired or bad signature) is rejected
(401) without the handler running; and a verified token attaches the
decoded `usuario` and runs the handler on it. -/
theorem verificarToken_gate (verify : String → Option JsVal) :
    (∀ handler : JsVal → JsVal,
      protectedRoute verify none handler =
        .error (403, .vObj [("message", .vStr "Token requerido")])) ∧
    (∀ (h : String) (handler : JsVal → JsVal),
      (headerToken h = none ∨ ∃ t, headerToken h = some t ∧ verify t = none) →
      protectedRoute verify (some h) handler =
        .error (401, .vObj [("message", .vStr "Token inválido")])) ∧
    (∀ (h t : String) (d : JsVal) (handler : JsVal → JsVal),
      headerToken h = some t → verify t = some d →
      protectedRoute verify (some h) handler = .ok (handler (d.getField "usuario"))) := by
  refine ⟨fun handler => rfl, fun h handler hbad => ?_, fun h t d handler ht hv => ?_⟩
  · rcases hbad with hnone | ⟨t, ht, hv⟩
    · simp [protectedRoute, verificarToken, hnone]
    · simp [protectedRoute, verificarToken, ht, hv]
  · simp [protectedRoute, verificarToken, ht, hv]

/-- Closed instance of `verificarToken_gate`: with a verifier accepting
exactly the token "tok" with payload `usuario = "u@x"`, the header
"Bearer tok" runs the handler on the decoded identity, and the header
"Bearer bad" is rejected with 401 for every handler. -/
theorem verificarToken_gate_witness :
    protectedRoute uniformVerify (some "Bearer tok") (fun u => u) = .ok (.vStr "u@x") ∧
    protectedRoute uniformVerify (some "Bearer bad") (fun u => u) =
      .error (401, .vObj [("message", .vStr "Token inválido")]) :=
  ⟨(verificarToken_gate uniformVerify).2.2 "Bearer tok" "tok"
      (.vObj [("usuario", .vStr "u@x")]) (fun u => u) (by decide) rfl,
   (verificarToken_gate uniformVerify).2.1 "Bearer bad" (fun u => u)
      (Or.inr ⟨"bad", by decide, rfl⟩)⟩

/-- C2: two register requests with the same correo: the first inserts a
row and answers 201 with the created user; the second hits the unique
index, answers 409 and leaves the store — the first user's row included
— unchanged.  A request with absent or empty correo or password answers
400 and inserts nothing. -/
theorem register_spec :
    (∀ (st : UsuarioStore) (b1 b2 : RegisterBody) (cs ps1 ps2 : String),
      cs ≠ "" → ps1 ≠ "" → ps2 ≠ "" →
      b1.correo = .vStr cs → b2.correo = .vStr cs →
      b1.password = .vStr ps1 → b2.password = .vStr ps2 →
      (∀ r ∈ st.rows, jsToString r.correo ≠ cs) →
      ∃ row,
        register b1 st = (.created (normalizarUsuario row),
          { rows := st.rows ++ [row], nextId := st.nextId + 1 }) ∧
        row.correo = .vStr cs ∧
        (RegisterRes.created (normalizarUsuario row)).status = 201 ∧
        register b2 { rows := st.rows ++ [row], nextId := st.nextId + 1 } =
          (.conflict "Usuario ya existe",
           { rows := st.rows ++ [row], nextId := st.nextId + 1 }) ∧
        (RegisterRes.conflict "Usuario ya existe").status = 409) ∧
    (∀ (st : UsuarioStore) (b : RegisterBody),
      (b.correo = .vUndef ∨ b.correo = .vStr "" ∨
       b.password = .vUndef ∨ b.password = .vStr "") →
      register b st = (.badRequest "Correo y password requeridos", st) ∧
      (RegisterRes.badRequest "Correo y password requeridos").status = 400) := by
  constructor
  · intro st b1 b2 cs ps1 ps2 hcs hps1 hps2 hb1c hb2c hb1p hb2p hfresh
    have hnc1 : normalizeEmptyToNull b1.correo = .vStr cs := by
      rw [hb1c]; simp [normalizeEmptyToNull, hcs]
    have hnc2 : normalizeEmptyToNull b2.correo = .vStr cs := by
      rw [hb2c]; simp [normalizeEmptyToNull, hcs]
    have hnp1 : normalizeEmptyToNull b1.password = .vStr ps1 := by
      rw [hb1p]; simp [normalizeEmptyToNull, hps1]
    have hnp2 : normalizeEmptyToNull b2.password = .vStr ps2 := by
      rw [hb2p]; simp [normalizeEmptyToNull, hps2]
    have hany1 : st.rows.any (fun r => dbTextEq r.correo (.vStr cs)) = false := by
      rw [List.any_eq_false]
      intro r hr
      simp only [dbTextEq, jsToString, beq_iff_eq]
      exact hfresh r hr
    refine ⟨registerRow b1 st.nextId, ?_, ?_, rfl, ?_, rfl⟩
    · simp [register, hnc1, hnp1, JsVal.truthy, hcs, hps1, hany1]
    · simp [registerRow, hnc1]
    · have hrowc : (registerRow b1 st.nextId).correo = .vStr cs := by
        simp [registerRow, hnc1]
      have hany2 : (st.rows ++ [registerRow b1 st.nextId]).any
          (fun r => dbTextEq r.correo (.vStr cs)) = true := by
        rw [List.any_eq_true]
        exact ⟨registerRow b1 st.nextId, by simp, by simp [dbTextEq, hrowc, jsToString]⟩
      simp [register, hnc2, hnp2, JsVal.truthy, hcs, hps2, hany2]
  · intro st b hbad
    refine ⟨?_, rfl⟩
    rcases hbad with h | h | h | h <;>
      simp [register, h, normalizeEmptyToNull, JsVal.truthy]

/-- Closed instance of `register_spec`: registering "a@b" twice into the
empty store — the second call conflicts and leaves the inserted row in
place — and an empty-password request is a 400 that changes nothing. -/
theorem register_spec_witness :
    (∃ row,
      register
        ⟨.vUndef, .vUndef, .vUndef, .vStr "a@b", .vStr "pw", .vUndef, .vUndef, .vUndef,
         .vUndef, .vUndef, .vUndef, .vUndef, .vUndef, .vUndef⟩ ⟨[], 1⟩ =
        (.created (normalizarUsuario row), { rows := [] ++ [row], nextId := 2 }) ∧
      row.correo = .vStr "a@b" ∧
      (RegisterRes.created (normalizarUsuario row)).status = 201 ∧
      register
        ⟨.vUndef, .vUndef, .vUndef, .vStr "a@b", .vStr "pw", .vUndef, .vUndef, .vUndef,
         .vUndef, .vUndef, .vUndef, .vUndef, .vUndef, .vUndef⟩
        { rows := [] ++ [row], nextId := 2 } =
        (.conflict "Usuario ya existe", { rows := [] ++ [row], nextId := 2 }) ∧
      (RegisterRes.conflict "Usuario ya existe").status = 409) ∧
    register
      ⟨.vUndef, .vUndef, .vUndef, .vStr "a@b", .vStr "", .vUndef, .vUndef, .vUndef,
       .vUndef, .vUndef, .vUndef, .vUndef, .vUndef, .vUndef⟩ ⟨[], 1⟩ =
      (.badRequest "Correo y password requeridos", ⟨[], 1⟩) :=
  ⟨register_spec.1 ⟨[], 1⟩ _ _ "a@b" "pw" "pw" (by decide) (by decide) (by decide)
      rfl rfl rfl rfl (by simp),
   (register_spec.2 ⟨[], 1⟩ _ (Or.inr (Or.inr (Or.inr rfl)))).1⟩

/-- A seed insert puts its name into the store. -/
theorem mem_names_seedInsert_self (st : CategoriaStore) (n : String) :
    n ∈ categoriaNames (seedInsert st n) := by
  unfold seedInsert
  split
  · next h =>
    rw [List.any_eq_true] at h
    rcases h with ⟨r, hr, he⟩
    exact List.mem_map.mpr ⟨r, hr, by simpa using he⟩
  · simp [categoriaNames]

/-- A seed insert keeps every name already present. -/
theorem mem_names_seedInsert_mono (st : CategoriaStore) (n m : String)
    (h : m ∈ categoriaNames st) : m ∈ categoriaNames (seedInsert st n) := by
  unfold seedInsert
  split
  · exact h
  · rcases List.mem_map.mp h with ⟨r, hr, he⟩
    exact List.mem_map.mpr ⟨r, by simp [hr], he⟩

/-- A seed insert of a name already present is a no-op. -/
theorem seedInsert_of_mem (st : CategoriaStore) (n : String)
    (h : n ∈ categoriaNames st) : seedInsert st n = st := by
  have hany : st.rows.any (fun r => r.nombre == n) = true := by
    rw [List.any_eq_true]
    rcases List.mem_map.mp h with ⟨r, hr, he⟩
    exact ⟨r, hr, by simp [he]⟩
  simp [seedInsert, hany]

/-- Folding seed inserts keeps every name already present. -/
theorem mem_names_foldl_mono (l : List String) (st : CategoriaStore) (m : String)
    (h : m ∈ categoriaNames st) : m ∈ categoriaNames (List.foldl seedInsert st l) := by
  induction l generalizing st with
  | nil => exact h
  | cons x xs ih => exact ih (seedInsert st x) (mem_names_seedInsert_mono st x m h)

/-- Every name of the fold's list ends up in the store. -/
theorem mem_names_foldl (l : List String) (st : CategoriaStore) (d : String) (hd : d ∈ l) :
    d ∈ categoriaNames (List.foldl seedInsert st l) := by
  induction l generalizing st with
  | nil => cases hd
  | cons x xs ih =>
    rcases List.mem_cons.mp hd with rfl | hd2
    · exact mem_names_foldl_mono xs (seedInsert st d) d (mem_names_seedInsert_self st d)
    · exact ih (seedInsert st x) hd2

/-- Folding seed inserts over names all present already is a no-op. -/
theorem foldl_seedInsert_of_mem (l : List String) (st : CategoriaStore)
    (h : ∀ d ∈ l, d ∈ categoriaNames st) : List.foldl seedInsert st l = st := by
  induction l generalizing st with
  | nil => rfl
  | cons x xs ih =>
    rw [List.foldl_cons, seedInsert_of_mem st x (h x (by simp))]
    exact ih st (fun d hd => h d (by simp [hd]))

/-- Every name a seed fold leaves in the store was already there or is
one of the folded names. -/
theorem names_foldl_subset (l : List String) (st : CategoriaStore) (n : String)
    (h : n ∈ categoriaNames (List.foldl seedInsert st l)) :
    n ∈ categoriaNames st ∨ n ∈ l := by
  induction l generalizing st with
  | nil => exact Or.inl h
  | cons x xs ih =>
    rcases ih (seedInsert st x) h with h2 | h2
    · unfold seedInsert at h2
      by_cases hany : st.rows.any (fun r => r.nombre == x) = true
      · rw [if_pos hany] at h2
        exact Or.inl h2
      · rw [if_neg hany] at h2
        simp only [categoriaNames, List.map_append, List.mem_append] at h2
        rcases h2 with h3 | h3
        · exact Or.inl h3
        · simp at h3
          exact Or.inr (by simp [h3])
    · exact Or.inr (by simp [h2])

/-- A seed insert never duplicates a name. -/
theorem seedInsert_nodup (st : CategoriaStore) (n : String)
    (h : (categoriaNames st).Nodup) : (categoriaNames (seedInsert st n)).Nodup := by
  unfold seedInsert
  split
  · exact h
  · next hany =>
    have hn : n ∉ categoriaNames st := by
      intro hmem
      apply hany
      rw [List.any_eq_true]
      rcases List.mem_map.mp hmem with ⟨r, hr, he⟩
      exact ⟨r, hr, by simp [he]⟩
    simpa [categoriaNames, List.nodup_append] using
      ⟨h, fun x hx he => hn (List.mem_map.mpr ⟨x, hx, he⟩)⟩

/-- Folding seed inserts never duplicates a name. -/
theorem foldl_seedInsert_nodup (l : List String) (st : CategoriaStore)
    (h : (categoriaNames st).Nodup) :
    (categoriaNames (List.foldl seedInsert st l)).Nodup := by
  induction l generalizing st with
  | nil => exact h
  | cons x xs ih => exact ih (seedInsert st x) (seedInsert_nodup st x h)

/-- C4: POST /categorias/seed is idempotent — each default name is
inserted only when absent (a unique-name store stays duplicate-free and
no duplicate-name error can arise), seeding a second time changes
nothing, and each call answers 200 with `ok: true` and the full current
sorted name list. -/
theorem seed_idempotent (st : CategoriaStore) :
    seedState (seedState st) = seedState st ∧
    postSeed (postSeed st).2 = ((200, true, sortedNombres (seedState st)), (postSeed st).2) ∧
    (postSeed st).1 = (200, true, sortedNombres (postSeed st).2) ∧
    (∀ d ∈ seedDefaults, d ∈ categoriaNames (seedState st)) ∧
    (∀ n, n ∈ categoriaNames (seedState st) → n ∈ categoriaNames st ∨ n ∈ seedDefaults) ∧
    ((categoriaNames st).Nodup → (categoriaNames (seedState st)).Nodup) := by
  have hidem : seedState (seedState st) = seedState st :=
    foldl_seedInsert_of_mem seedDefaults (seedState st)
      (fun d hd => mem_names_foldl seedDefaults st d hd)
  refine ⟨hidem, ?_, rfl, fun d hd => mem_names_foldl seedDefaults st d hd,
    fun n hn => names_foldl_subset seedDefaults st n hn,
    fun h => foldl_seedInsert_nodup seedDefaults st h⟩
  show ((200, true, sortedNombres (seedState (seedState st))), seedState (seedState st)) = _
  rw [hidem]
  rfl

/-- Closed instance of `seed_idempotent` at a store already holding
"Ropa": every default ends up present and a duplicate-free store stays
duplicate-free. -/
theorem seed_idempotent_witness :
    "Electrónica" ∈ categoriaNames (seedState ⟨[⟨1, "Ropa"⟩], 2⟩) ∧
    (categoriaNames (seedState ⟨[⟨1, "Ropa"⟩], 2⟩)).Nodup :=
  ⟨(seed_idempotent ⟨[⟨1, "Ropa"⟩], 2⟩).2.2.2.1 "Electrónica" (by decide),
   (seed_idempotent ⟨[⟨1, "Ropa"⟩], 2⟩).2.2.2.2.2 (by decide)⟩

/-- C5: DELETE /categorias/:id answers 404 and changes nothing when the
id is absent; otherwise the best-effort product cleanup nulls the
category of every product carrying the deleted name (and its failure,
`uf = true`, is swallowed, leaving products untouched while the delete
still succeeds), the category row is removed, and a subsequent create
with the same name succeeds. -/
theorem deleteCategoria_spec :
    (∀ (id : Nat) (uf : Bool) (cst : CategoriaStore) (pst : ProductoStore),
      (∀ r ∈ cst.rows, r.id ≠ id) →
      deleteCategoria id uf cst pst = (.notFound "Categoría no encontrada", cst, pst)) ∧
    (∀ (id : Nat) (uf : Bool) (cst : CategoriaStore) (pst : ProductoStore)
        (row : CategoriaRow),
      cst.rows.find? (fun r => r.id == id) = some row →
      (deleteCategoria id uf cst pst).1 = .ok ∧
      (deleteCategoria id uf cst pst).2.1.rows = cst.rows.filter (fun r => !(r.id == id)) ∧
      (uf = false → ∀ p ∈ (deleteCategoria id uf cst pst).2.2.rows,
        p.categoria ≠ some row.nombre) ∧
      (uf = false → (deleteCategoria id uf cst pst).2.2.rows =
        pst.rows.map (fun p =>
          if p.categoria == some row.nombre then { p with categoria := none } else p)) ∧
      (uf = true → (deleteCategoria id uf cst pst).2.2 = pst) ∧
      (row.nombre ≠ "" → jsTrim row.nombre = row.nombre →
        (∀ r ∈ cst.rows, r.nombre = row.nombre → r.id = id) →
        ∃ crow cst2,
          createCategoria (.vStr row.nombre) (deleteCategoria id uf cst pst).2.1 =
            (.created crow, cst2) ∧ crow.nombre = row.nombre)) := by
  constructor
  · intro id uf cst pst h
    have hfind : cst.rows.find? (fun r => r.id == id) = none := by
      rw [List.find?_eq_none]
      intro r hr
      simpa using h r hr
    simp [deleteCategoria, hfind]
  · intro id uf cst pst row hfind
    refine ⟨?_, ?_, ?_, ?_, ?_, ?_⟩
    · simp [deleteCategoria, hfind]
    · simp [deleteCategoria, hfind]
    · intro huf p hp
      simp only [deleteCategoria, hfind, huf, if_neg Bool.false_ne_true] at hp
      rcases List.mem_map.mp hp with ⟨q, _, rfl⟩
      by_cases hq : q.categoria == some row.nombre
      · simp [hq]
      · rw [if_neg hq]
        simpa using hq
    · intro huf
      simp [deleteCategoria, hfind, huf]
    · intro huf
      simp [deleteCategoria, hfind, huf]
    · intro hne htrim huniq
      have hnames : ((deleteCategoria id uf cst pst).2.1.rows.any
          (fun r => r.nombre == jsTrim row.nombre)) = false := by
        rw [htrim, List.any_eq_false]
        intro r hr
        have hr2 : r ∈ cst.rows.filter (fun s => !(s.id == id)) := by
          have : (deleteCategoria id uf cst pst).2.1.rows =
              cst.rows.filter (fun s => !(s.id == id)) := by
            simp [deleteCategoria, hfind]
          rwa [this] at hr
        rcases List.mem_filter.mp hr2 with ⟨hmem, hid⟩
        intro he
        have : r.id = id := huniq r hmem (by simpa using he)
        simp [this] at hid
      refine ⟨⟨(deleteCategoria id uf cst pst).2.1.nextId, jsTrim row.nombre⟩,
        { rows := (deleteCategoria id uf cst pst).2.1.rows ++
            [⟨(deleteCategoria id uf cst pst).2.1.nextId, jsTrim row.nombre⟩],
          nextId := (deleteCategoria id uf cst pst).2.1.nextId + 1 }, ?_, ?_⟩
      · have htr : (JsVal.vStr row.nombre).truthy = true := by
          simp [JsVal.truthy, hne]
        have hcond : (jsTrim (jsToString (.vStr row.nombre)) == "") = false := by
          simp [jsToString, htrim, hne]
        simp [createCategoria, htr, hcond, hnames]
      · simpa using htrim

/-- Closed instance of `deleteCategoria_spec`: deleting category 1
("Hogar") from a store where product 1 carries "Hogar" nulls that
product's category, removes the row, and creating "Hogar" again
succeeds; deleting id 9 is a 404. -/
theorem deleteCategoria_spec_witness :
    deleteCategoria 9 false ⟨[⟨1, "Hogar"⟩], 2⟩ ⟨[], 1⟩ =
      (.notFound "Categoría no encontrada", ⟨[⟨1, "Hogar"⟩], 2⟩, ⟨[], 1⟩) ∧
    (deleteCategoria 1 false ⟨[⟨1, "Hogar"⟩], 2⟩ ⟨[], 1⟩).1 = .ok ∧
    (∃ crow cst2,
      createCategoria (.vStr "Hogar")
          (deleteCategoria 1 false ⟨[⟨1, "Hogar"⟩], 2⟩ ⟨[], 1⟩).2.1 =
        (.created crow, cst2) ∧ crow.nombre = "Hogar") :=
  ⟨deleteCategoria_spec.1 9 false ⟨[⟨1, "Hogar"⟩], 2⟩ ⟨[], 1⟩ (by decide),
   (deleteCategoria_spec.2 1 false ⟨[⟨1, "Hogar"⟩], 2⟩ ⟨[], 1⟩ ⟨1, "Hogar"⟩ (by decide)).1,
   (deleteCategoria_spec.2 1 false ⟨[⟨1, "Hogar"⟩], 2⟩ ⟨[], 1⟩ ⟨1, "Hogar"⟩
      (by decide)).2.2.2.2.2 (by decide) (by decide) (by decide)⟩

/-- C1: POST /boletas answers 400 and inserts nothing when the productos
field (after JSON-parsing when supplied as a string) is missing, not an
array, or empty, and likewise when a comprador or productos string is
not valid JSON; when productos is a non-empty array and comprador an
object with non-empty nombre and correo, a receipt is inserted and
returned with 201, its fecha defaulting to the current time and its
total to 0 when those fields are absent. -/
theorem postBoletas_spec (parse : String → Option JsVal) (body : BoletaBody)
    (st : BoletaStore) :
    ((∀ v, parseIfString parse body.productos = some v →
        (!v.truthy || !v.isArray || v.arrayLength == 0) = true) →
      ∃ m, postBoletas parse body st = (.badRequest m, st) ∧
        (PostBoletasRes.badRequest m).status = 400) ∧
    (((∃ s, body.comprador = .vStr s ∧ parse s = none) ∨
      (∃ s, body.productos = .vStr s ∧ parse s = none)) →
      ∃ m, postBoletas parse body st = (.badRequest m, st) ∧
        (PostBoletasRes.badRequest m).status = 400) ∧
    (∀ comp l nom cor,
      parseIfString parse body.comprador = some comp →
      parseIfString parse body.productos = some (.vArr l) →
      l ≠ [] →
      comp.typeofJs = "object" → comp.truthy = true →
      comp.getField "nombre" = .vStr nom → nom ≠ "" →
      comp.getField "correo" = .vStr cor → cor ≠ "" →
      ∃ row,
        postBoletas parse body st =
          (.created { row with total := numOrZero row.total },
           { rows := st.rows ++ [row], nextNumero := st.nextNumero + 1 }) ∧
        (PostBoletasRes.created { row with total := numOrZero row.total }).status = 201 ∧
        row.comprador = comp ∧ row.productos = .vArr l ∧
        (body.fecha = .vUndef → row.fecha = .currentTime) ∧
        (body.total = .vUndef → row.total = some 0)) := by
  refine ⟨?_, ?_, ?_⟩
  · intro hbad
    rcases hc : parseIfString parse body.comprador with _ | comp
    · exact ⟨"comprador debe ser JSON válido", by simp [postBoletas, hc], rfl⟩
    · rcases hp : parseIfString parse body.productos with _ | prod
      · exact ⟨"productos debe ser JSON válido", by simp [postBoletas, hc, hp], rfl⟩
      · have hb := hbad prod hp
        exact ⟨"Productos requeridos (array no vacío)",
          by simp [postBoletas, hc, hp, hb], rfl⟩
  · intro hbad
    rcases hbad with ⟨s, hs, hps⟩ | ⟨s, hs, hps⟩
    · have hc : parseIfString parse body.comprador = none := by
        simp [parseIfString, hs, hps]
      exact ⟨"comprador debe ser JSON válido", by simp [postBoletas, hc], rfl⟩
    · rcases hc : parseIfString parse body.comprador with _ | comp
      · exact ⟨"comprador debe ser JSON válido", by simp [postBoletas, hc], rfl⟩
      · have hp : parseIfString parse body.productos = none := by
          simp [parseIfString, hs, hps]
        exact ⟨"productos debe ser JSON válido", by simp [postBoletas, hc, hp], rfl⟩
  · intro comp l nom cor hc hp hl hto htr hn hnne hcor hcne
    have hcond1 : (!(JsVal.vArr l).truthy || !(JsVal.vArr l).isArray ||
        ((JsVal.vArr l).arrayLength == 0)) = false := by
      simp [JsVal.truthy, JsVal.isArray, JsVal.arrayLength, List.length_eq_zero, hl]
    have hcond2 : (!comp.truthy || (comp.typeofJs != "object") ||
        !(comp.getField "nombre").truthy || !(comp.getField "correo").truthy) = false := by
      rw [htr, hto, hn, hcor]
      simp [JsVal.truthy, hnne, hcne]
    refine ⟨{ numero_compra := st.nextNumero,
              fecha := if body.fecha.truthy then FechaVal.fromInput body.fecha
                else FechaVal.currentTime,
              comprador := comp, productos := .vArr l,
              total := match body.total with | .vUndef => some 0 | t => jsNumber t,
              user_id := coerceUserId body.user_id }, ?_, rfl, rfl, rfl, ?_, ?_⟩
    · simp [postBoletas, hc, hp, hcond1, hcond2]
    · intro h
      simp [h, JsVal.truthy]
    · intro h
      simp [h]

/-- Closed instance of `postBoletas_spec`: an empty productos array is a
400 that inserts nothing, and the valid one-product body for buyer Juan
is inserted and returned with 201, with fecha the current time and
total 0. -/
theorem postBoletas_spec_witness :
    (∃ m, postBoletas (fun _ => none) sinProductosBody ⟨[], 1⟩ = (.badRequest m, ⟨[], 1⟩) ∧
      (PostBoletasRes.badRequest m).status = 400) ∧
    (∃ row, postBoletas (fun _ => none) juanBody ⟨[], 1⟩ =
        (.created { row with total := numOrZero row.total },
         { rows := [] ++ [row], nextNumero := 1 + 1 }) ∧
      (PostBoletasRes.created { row with total := numOrZero row.total }).status = 201 ∧
      row.comprador = juanComprador ∧ row.productos = .vArr [.vNum 1] ∧
      (juanBody.fecha = .vUndef → row.fecha = .currentTime) ∧
      (juanBody.total = .vUndef → row.total = some 0)) :=
  ⟨(postBoletas_spec (fun _ => none) sinProductosBody ⟨[], 1⟩).1
     (by
       intro v hv
       have h2 : some (JsVal.vArr []) = some v := hv
       obtain rfl := Option.some.inj h2
       decide),
   (postBoletas_spec (fun _ => none) juanBody ⟨[], 1⟩).2.2 juanComprador [.vNum 1]
     "Juan" "j@x" rfl rfl (List.cons_ne_nil _ _) rfl rfl rfl (by decide) rfl (by decide)⟩
